import Mathlib

/-!
Verification development for the `orgformat` library
(`src/orgformat/orgformat.py`), a utility library that generates and
modifies Org mode syntax elements such as time-stamps and date-stamps.

The Python source is shallowly embedded below:

* proleptic-Gregorian calendar arithmetic mirrors the internals of the
  CPython `datetime` module (`_ymd2ord` / `_ord2ymd`),
* `time.struct_time` becomes the structure `StructTime`,
* `datetime.datetime` becomes the structure `PyDatetime` (naive values
  only; `tzinfo` is always `None` in this library),
* fallible operations return `Except PyError _`, where `PyError`
  distinguishes the library's own `TimestampParseException` from the
  built-in `ValueError`, `OverflowError` and `AssertionError`,
* the two compiled regular expressions (`ORGMODE_TIMESTAMP_REGEX` and
  `ORGMODE_TIMESTAMP_RANGE_REGEX`) become the explicit matchers
  `matchSingle` / `reMatchSingleFull` / `reMatchRangeFull`.  `\d` is
  modelled as the ASCII digits `0`-`9` (Python's `\d` also accepts
  non-ASCII decimal digits; no property below depends on those).
-/

namespace Orgformat

/-! ### Calendar arithmetic (proleptic Gregorian calendar)

These definitions mirror the arithmetic used by CPython's `datetime`
module, which the Python source calls through `datetime.datetime`,
`datetime.weekday()`, `datetime.timetuple()` and timedelta addition. -/

/-- A year is a leap year in the proleptic Gregorian calendar. -/
def isLeap (y : ℕ) : Bool :=
  (y % 4 == 0 && y % 100 != 0) || (y % 400 == 0)

/-- Number of days in month `m` (1-12) of year `y`
(`datetime._days_in_month`). -/
def daysInMonth (y m : ℕ) : ℕ :=
  if m = 2 then (if isLeap y then 29 else 28)
  else if m = 4 ∨ m = 6 ∨ m = 9 ∨ m = 11 then 30
  else 31

/-- Number of days in the months strictly before month `m` of year `y`
(`datetime._days_before_month`). -/
def daysBeforeMonth (y m : ℕ) : ℕ :=
  (List.range (m - 1)).foldl (fun acc i => acc + daysInMonth y (i + 1)) 0

/-- Number of days strictly before January 1 of year `y`
(`datetime._days_before_year`). -/
def daysBeforeYear (y : ℕ) : ℕ :=
  365 * (y - 1) + ((y - 1) / 4 - (y - 1) / 100) + (y - 1) / 400

/-- Proleptic Gregorian ordinal of the date: `0001-01-01` has ordinal 1
(`datetime.date.toordinal`). -/
def toordinal (y m d : ℕ) : ℕ :=
  daysBeforeYear y + daysBeforeMonth y m + d

/-- Day of the week with Monday = 0 and Sunday = 6
(`datetime.date.weekday`). -/
def weekday (y m d : ℕ) : ℕ :=
  (toordinal y m d + 6) % 7

/-- Inverse of `toordinal` (`datetime._ord2ymd`): year, month, day from a
proleptic Gregorian ordinal. -/
def fromordinal (nn : ℕ) : ℕ × ℕ × ℕ :=
  let n := nn - 1
  let n400 := n / 146097
  let n := n % 146097
  let n100 := n / 36524
  let n := n % 36524
  let n4 := n / 1461
  let n := n % 1461
  let n1 := n / 365
  let n := n % 365
  let year := n400 * 400 + 1 + n100 * 100 + n4 * 4 + n1
  if n1 = 4 ∨ n100 = 4 then
    (year - 1, 12, 31)
  else
    let month := (n + 50) / 32
    let preceding := daysBeforeMonth year month
    if n < preceding then
      let month := month - 1
      let preceding := preceding - daysInMonth year month
      (year, month, n - preceding + 1)
    else
      (year, month, n - preceding + 1)

/-! ### Data model -/

/-- Python error values that the embedded code can signal.
`timestampParseException` is the library's own exception class (it
carries the offending input, as the source builds the message from it);
the other constructors stand for the built-in exception classes. -/
inductive PyError where
  | timestampParseException (offending : String)
  | valueError
  | overflowError
  | assertionError
  deriving DecidableEq, Repr

/-- `time.struct_time`: a wall-clock tuple.  The numeric fields are
modelled as `ℕ` (every value this library constructs or validates is
non-negative) except `tm_isdst`, which CPython routinely sets to `-1`
("unknown"). -/
structure StructTime where
  tm_year : ℕ
  tm_mon : ℕ
  tm_mday : ℕ
  tm_hour : ℕ
  tm_min : ℕ
  tm_sec : ℕ
  tm_wday : ℕ
  tm_yday : ℕ
  tm_isdst : ℤ
  deriving DecidableEq, Repr

/-- A naive `datetime.datetime` value (`tzinfo = None` throughout the
library). -/
structure PyDatetime where
  year : ℕ
  month : ℕ
  day : ℕ
  hour : ℕ
  minute : ℕ
  second : ℕ
  microsecond : ℕ
  deriving DecidableEq, Repr

/-- The `datetime.datetime` constructor: validates its components and
raises `ValueError` when any is out of range (`MINYEAR = 1`,
`MAXYEAR = 9999`). -/
def datetime_mk (y m d h mi s : ℕ) : Except PyError PyDatetime :=
  if 1 ≤ y ∧ y ≤ 9999 ∧ 1 ≤ m ∧ m ≤ 12 ∧ 1 ≤ d ∧ d ≤ daysInMonth y m
     ∧ h ≤ 23 ∧ mi ≤ 59 ∧ s ≤ 59 then
    .ok ⟨y, m, d, h, mi, s, 0⟩
  else
    .error .valueError

/-- Microseconds of `dt` since the start of `0001-01-01`, the timeline
on which CPython performs `datetime + timedelta`. -/
def datetimeMicros (dt : PyDatetime) : ℕ :=
  ((((toordinal dt.year dt.month dt.day - 1) * 24 + dt.hour) * 60
      + dt.minute) * 60 + dt.second) * 1000000 + dt.microsecond

/-- `datetime + timedelta`, the timedelta given as a signed count of
microseconds (CPython normalizes every `timedelta` to days/seconds/
microseconds; `timedelta(hours = h)` for the fractional hour counts the
claims use converts exactly, e.g. `-2.5` hours = `-9000000000` μs).
Raises `OverflowError` when the result leaves years 1-9999. -/
def datetimeAddMicros (dt : PyDatetime) (delta : ℤ) : Except PyError PyDatetime :=
  let t : ℤ := (datetimeMicros dt : ℤ) + delta
  if t < 0 then .error .overflowError
  else
    let tn := t.toNat
    let micro := tn % 1000000
    let tsec := tn / 1000000
    let sec := tsec % 60
    let tmin := tsec / 60
    let minute := tmin % 60
    let thour := tmin / 60
    let hour := thour % 24
    let days := thour / 24
    let ymd := fromordinal (days + 1)
    if ymd.1 < 1 ∨ 9999 < ymd.1 then .error .overflowError
    else .ok ⟨ymd.1, ymd.2.1, ymd.2.2, hour, minute, sec, micro⟩

/-! ### Rendering (`time.strftime` with the library's fixed templates) -/

/-- The character for a decimal digit `n ≤ 9`. -/
def digitChar (n : ℕ) : Char := Char.ofNat (48 + n)

/-- Zero-padded two-digit rendering (`%m`, `%d`, `%H`, `%M`); every call
site passes a value below 100. -/
def pad2 (n : ℕ) : List Char :=
  [digitChar (n / 10), digitChar (n % 10)]

/-- Rendering of `%Y`; every value this library renders lies in
1000-9999 (the timestamp grammar itself only accepts 1000-2999), where
`%Y` prints exactly four digits. -/
def year4 (n : ℕ) : List Char :=
  [digitChar (n / 1000 % 10), digitChar (n / 100 % 10),
   digitChar (n / 10 % 10), digitChar (n % 10)]

/-- `%a`: the English three-letter weekday abbreviation for
`tm_wday` (Monday = 0). -/
def weekdayName (w : ℕ) : List Char :=
  match w with
  | 0 => ['M', 'o', 'n']
  | 1 => ['T', 'u', 'e']
  | 2 => ['W', 'e', 'd']
  | 3 => ['T', 'h', 'u']
  | 4 => ['F', 'r', 'i']
  | 5 => ['S', 'a', 't']
  | 6 => ['S', 'u', 'n']
  | _ => []

/-- The characters produced by the library's four `strftime` templates
`<%Y-%m-%d %a>`, `<%Y-%m-%d %a %H:%M>`, `[%Y-%m-%d %a]` and
`[%Y-%m-%d %a %H:%M]`. -/
def orgRender (show_time inactive : Bool) (y m d wd h mi : ℕ) : List Char :=
  (if inactive then '[' else '<') ::
    year4 y ++ '-' :: pad2 m ++ '-' :: pad2 d ++ ' ' :: weekdayName wd ++
    (if show_time then ' ' :: pad2 h ++ ':' :: pad2 mi else []) ++
    [if inactive then ']' else '>']

/-- `time.strftime` restricted to the library's four templates.  CPython
validates the supplied tuple first (`checktm`) and raises `ValueError`
on out-of-range fields; the render itself reads the year, month, day,
weekday, hour and minute fields. -/
def strftime_org (show_time inactive : Bool) (st : StructTime) : Except PyError String :=
  if 1 ≤ st.tm_mon ∧ st.tm_mon ≤ 12 ∧ 1 ≤ st.tm_mday ∧ st.tm_mday ≤ 31
     ∧ st.tm_hour ≤ 23 ∧ st.tm_min ≤ 59 ∧ st.tm_sec ≤ 61
     ∧ st.tm_wday ≤ 6 ∧ st.tm_yday ≤ 366 ∧ st.tm_year ≤ 9999 then
    .ok ⟨orgRender show_time inactive st.tm_year st.tm_mon st.tm_mday
           st.tm_wday st.tm_hour st.tm_min⟩
  else
    .error .valueError

/-! ### Conversion layer (`OrgFormat.struct_time_to_datetime`,
`OrgFormat.datetime_to_struct_time`, `OrgFormat.fix_struct_time_wday`) -/

/-- `OrgFormat.struct_time_to_datetime`: builds a `datetime` from the
first six fields of a `struct_time` (the `datetime` constructor may
raise `ValueError`). -/
def struct_time_to_datetime (tuple_date : StructTime) : Except PyError PyDatetime :=
  datetime_mk tuple_date.tm_year tuple_date.tm_mon tuple_date.tm_mday
    tuple_date.tm_hour tuple_date.tm_min tuple_date.tm_sec

/-- `OrgFormat.datetime_to_struct_time`, i.e. `datetime.timetuple()`:
weekday and year-day are computed from the date and `tm_isdst` is
`-1`. -/
def datetime_to_struct_time (tuple_date : PyDatetime) : StructTime :=
  { tm_year := tuple_date.year
    tm_mon := tuple_date.month
    tm_mday := tuple_date.day
    tm_hour := tuple_date.hour
    tm_min := tuple_date.minute
    tm_sec := tuple_date.second
    tm_wday := weekday tuple_date.year tuple_date.month tuple_date.day
    tm_yday := daysBeforeMonth tuple_date.year tuple_date.month + tuple_date.day
    tm_isdst := -1 }

/-- `OrgFormat.fix_struct_time_wday`: rebuilds the tuple from the
`datetime` round-trip; the weekday is recomputed and the last two
fields are the literal zeros of the source
(`time.struct_time((..., datetimestamp.weekday(), 0, 0))`). -/
def fix_struct_time_wday (tuple_date : StructTime) : Except PyError StructTime := do
  let datetimestamp ← struct_time_to_datetime tuple_date
  .ok { tm_year := datetimestamp.year
        tm_mon := datetimestamp.month
        tm_mday := datetimestamp.day
        tm_hour := datetimestamp.hour
        tm_min := datetimestamp.minute
        tm_sec := datetimestamp.second
        tm_wday := weekday datetimestamp.year datetimestamp.month datetimestamp.day
        tm_yday := 0
        tm_isdst := 0 }

/-! ### Formatting layer (`OrgFormat.date` and friends) -/

/-- The argument type of `OrgFormat.date`: a `time.struct_time` or a
`datetime.datetime` (the source dispatches on `isinstance`). -/
def TupleOrDatetime : Type := StructTime ⊕ PyDatetime

/-- `OrgFormat.date`: fixes the weekday of a `struct_time` argument (or
converts a `datetime` argument via `timetuple`), then renders one of the
four templates selected by `show_time` and `inactive`. -/
def date (tuple_date : TupleOrDatetime) (show_time inactive : Bool) : Except PyError String :=
  match tuple_date with
  | .inl st => (fix_struct_time_wday st).bind (strftime_org show_time inactive)
  | .inr dt => strftime_org show_time inactive (datetime_to_struct_time dt)

/-- `OrgFormat.inactive_date`: like `date` with inactive brackets, but
the source applies `fix_struct_time_wday` a second time inside the
`strftime` call. -/
def inactive_date (tuple_date : TupleOrDatetime) (show_time : Bool) : Except PyError String :=
  let local_structtime : Except PyError StructTime :=
    match tuple_date with
    | .inl st => fix_struct_time_wday st
    | .inr dt => .ok (datetime_to_struct_time dt)
  local_structtime.bind (fun lst =>
    (fix_struct_time_wday lst).bind (strftime_org show_time true))

/-- `OrgFormat.datetime`: documented as taking an `inactive` flag, but
implemented as `OrgFormat.date(tuple_datetime, show_time=True)` -- the
flag is never forwarded. -/
def datetime (tuple_datetime : TupleOrDatetime) (inactive : Bool) : Except PyError String :=
  date tuple_datetime true false

/-- `OrgFormat.inactive_datetime`. -/
def inactive_datetime (tuple_datetime : TupleOrDatetime) : Except PyError String :=
  inactive_date tuple_datetime true

/-- `OrgFormat.daterange`: both endpoints date-only, joined by `--`. -/
def daterange (begin_t end_t : StructTime) : Except PyError String := do
  let s1 ← date (.inl begin_t) false false
  let s2 ← date (.inl end_t) false false
  .ok (s1 ++ "--" ++ s2)

/-- `OrgFormat.datetimerange`: both endpoints date+time, joined by
`--`. -/
def datetimerange (begin_t end_t : StructTime) : Except PyError String := do
  let s1 ← date (.inl begin_t) true false
  let s2 ← date (.inl end_t) true false
  .ok (s1 ++ "--" ++ s2)

/-- `OrgFormat.utcrange`: a date-only range when hour, minute and second
are zero on both endpoints, otherwise a date+time range. -/
def utcrange (begin_tupel end_tupel : StructTime) : Except PyError String :=
  if begin_tupel.tm_sec = 0 ∧ begin_tupel.tm_min = 0 ∧ begin_tupel.tm_hour = 0
     ∧ end_tupel.tm_sec = 0 ∧ end_tupel.tm_min = 0 ∧ end_tupel.tm_hour = 0 then
    daterange begin_tupel end_tupel
  else
    datetimerange begin_tupel end_tupel

/-! ### Grammar layer: the two compiled patterns

`SINGLE_ORGMODE_TIMESTAMP` is
`([<\[]([12]\d\d\d)-([012345]\d)-([012345]\d) (Mon|Tue|Wed|Thu|Fri|Sat|Sun|Mo|Di|Mi|Do|Fr|Sa|So|Mon|Die|Mit|Don|Fre|Sam|Son) (([01]\d)|(20|21|22|23)):([012345]\d)[>\]])`.

`ORGMODE_TIMESTAMP_REGEX` is that pattern followed by `$`, and
`ORGMODE_TIMESTAMP_RANGE_REGEX` is two copies joined by `-(-)?`,
followed by `$`.  Both are used through `re.match`, which anchors the
match at the start of the string.

Everything after the weekday alternation is a fixed-shape tail (space,
two hour digits, `:`, two minute digits, closing bracket), so of the
alternatives that are a prefix of the remaining text at most one can
be followed by a matching tail (two distinct prefix-comparable
alternatives disagree on whether the character after the shorter one is
a space).  First-match-wins over the alternative list
(`List.findSome?`) therefore reproduces the backtracking regex engine
exactly.  Likewise the two hour alternatives are distinguished by their
first character, and the greedy optional dash of `-(-)?` never needs to
backtrack because a surrendered dash would have to match `[<\[]`. -/

/-- Character class `[<\[]`. -/
def isOpenB (c : Char) : Bool := c = '<' || c = '['

/-- Character class `[>\]]`. -/
def isCloseB (c : Char) : Bool := c = '>' || c = ']'

/-- `\d`, modelled as the ASCII digits. -/
def isD (c : Char) : Bool := decide (48 ≤ c.toNat ∧ c.toNat ≤ 57)

/-- Character class `[012345]`. -/
def is05 (c : Char) : Bool := decide (48 ≤ c.toNat ∧ c.toNat ≤ 53)

/-- Numeric value of a digit character (what `int()` computes on it). -/
def dv (c : Char) : ℕ := c.toNat - 48

/-- The capture groups of one `SINGLE_ORGMODE_TIMESTAMP` match: the
bracket characters, `int()` of groups 2-4, 6 and 9, and the weekday
token (group 5). -/
structure SingleMatch where
  openB : Char
  year : ℕ
  month : ℕ
  day : ℕ
  wdayTok : List Char
  hour : ℕ
  minute : ℕ
  closeB : Char
  deriving DecidableEq, Repr

/-- The weekday alternation of the pattern, in source order. -/
def weekdayAlts : List (List Char) :=
  [['M', 'o', 'n'], ['T', 'u', 'e'], ['W', 'e', 'd'], ['T', 'h', 'u'],
   ['F', 'r', 'i'], ['S', 'a', 't'], ['S', 'u', 'n'],
   ['M', 'o'], ['D', 'i'], ['M', 'i'], ['D', 'o'], ['F', 'r'], ['S', 'a'], ['S', 'o'],
   ['M', 'o', 'n'], ['D', 'i', 'e'], ['M', 'i', 't'], ['D', 'o', 'n'],
   ['F', 'r', 'e'], ['S', 'a', 'm'], ['S', 'o', 'n']]

/-- Strip the literal `w` from the front of `l`. -/
def dropLit : List Char → List Char → Option (List Char)
  | [], l => some l
  | _, [] => none
  | a :: as, b :: bs => if a = b then dropLit as bs else none

/-- The fixed tail after the weekday token:
` (([01]\d)|(20|21|22|23)):([012345]\d)[>\]]`. -/
def matchTail (l : List Char) : Option ((ℕ × ℕ × Char) × List Char) :=
  match l with
  | ' ' :: h1 :: h2 :: ':' :: m1 :: m2 :: cb :: rest =>
    if (((h1 = '0' || h1 = '1') && isD h2)
          || (h1 = '2' && (h2 = '0' || h2 = '1' || h2 = '2' || h2 = '3')))
       && (is05 m1 && isD m2) && isCloseB cb then
      some ((dv h1 * 10 + dv h2, dv m1 * 10 + dv m2, cb), rest)
    else none
  | _ => none

/-- Match `SINGLE_ORGMODE_TIMESTAMP` at the front of `l`, returning the
capture groups and the unconsumed suffix. -/
def matchSingle (l : List Char) : Option (SingleMatch × List Char) :=
  match l with
  | ob :: y1 :: y2 :: y3 :: y4 :: '-' :: mo1 :: mo2 :: '-' :: d1 :: d2 :: ' ' :: rest =>
    if isOpenB ob && ((y1 = '1' || y1 = '2') && isD y2 && isD y3 && isD y4)
       && (is05 mo1 && isD mo2) && (is05 d1 && isD d2) then
      weekdayAlts.findSome? (fun w =>
        match dropLit w rest with
        | some rest2 =>
          (matchTail rest2).map (fun t =>
            (({ openB := ob,
                year := ((dv y1 * 10 + dv y2) * 10 + dv y3) * 10 + dv y4,
                month := dv mo1 * 10 + dv mo2,
                day := dv d1 * 10 + dv d2,
                wdayTok := w,
                hour := t.1.1,
                minute := t.1.2.1,
                closeB := t.1.2.2 } : SingleMatch), t.2))
        | none => none)
    else none
  | _ => none

/-- Python's `$` (without `MULTILINE`): matches at the end of the
string, or just before a newline at the end of the string. -/
def endAnchor (rest : List Char) : Bool := rest = [] || rest = ['\n']

/-- `re.match(ORGMODE_TIMESTAMP_REGEX, s)`: the single pattern anchored
at the start by `re.match` and at the end by `$`. -/
def reMatchSingleFull (s : String) : Option SingleMatch :=
  match matchSingle s.data with
  | some (m, rest) => if endAnchor rest then some m else none
  | none => none

/-- `re.match(ORGMODE_TIMESTAMP_RANGE_REGEX, s)`.  Returns the
substrings captured as groups 1 and 11 (the two bracketed timestamps),
which is what `apply_timedelta_to_Orgmode_timestamp` consumes. -/
def reMatchRangeFull (s : String) : Option (String × String) :=
  match matchSingle s.data with
  | some (_, r1) =>
    let s1 : List Char := s.data.take (s.data.length - r1.length)
    match r1 with
    | '-' :: r2 =>
      let second : Option (List Char × List Char) :=
        match r2 with
        | '-' :: r3 =>
          -- greedy `(-)?`: if the second single fails after `--`, the
          -- fallback would have to match `[<\[]` against `-`, so there
          -- is no alternative match to try.
          (matchSingle r3).map (fun m2 => (r3, m2.2))
        | _ => (matchSingle r2).map (fun m2 => (r2, m2.2))
      match second with
      | some (start2, r4) =>
        if endAnchor r4 then
          some (⟨s1⟩, ⟨start2.take (start2.length - r4.length)⟩)
        else none
      | none => none
    | _ => none
  | none => none

/-! ### Parsing and arithmetic layer -/

/-- `OrgFormat.orgmode_timestamp_to_datetime`: match the single-stamp
pattern (raising `TimestampParseException` on failure, with the
offending string), then build
`datetime.datetime(year, month, day, hour, minute, 0)` -- whose own
`ValueError` for out-of-range components is *not* caught. -/
def orgmode_timestamp_to_datetime (orgtime : String) : Except PyError PyDatetime :=
  match reMatchSingleFull orgtime with
  | none => .error (.timestampParseException orgtime)
  | some components =>
    datetime_mk components.year components.month components.day
      components.hour components.minute 0

/-- `OrgFormat.apply_timedelta_to_Orgmode_timestamp`.  The hour delta is
given as the microsecond count of the `timedelta` the source builds
(`datetime.timedelta(0, 0, 0, 0, 0, deltahours)`); e.g. `deltahours =
-2.5` is `-9000000000` μs.  A range is detected with the range pattern,
each captured endpoint is re-parsed, shifted and re-rendered with
`OrgFormat.datetime` (active, date+time), and the results are joined
with `--`. -/
def apply_timedelta_to_Orgmode_timestamp (orgtime : String) (deltaMicro : ℤ) :
    Except PyError String :=
  match reMatchRangeFull orgtime with
  | some range_components => do
    let dt1 ← orgmode_timestamp_to_datetime range_components.1
    let dt1s ← datetimeAddMicros dt1 deltaMicro
    let r1 ← datetime (.inr dt1s) false
    let dt2 ← orgmode_timestamp_to_datetime range_components.2
    let dt2s ← datetimeAddMicros dt2 deltaMicro
    let r2 ← datetime (.inr dt2s) false
    .ok (r1 ++ "--" ++ r2)
  | none => do
    let dt ← orgmode_timestamp_to_datetime orgtime
    let dts ← datetimeAddMicros dt deltaMicro
    datetime (.inr dts) false

/-! ### `time.strptime` for the library's fixed formats

CPython's `_strptime` compiles the format into one regular expression
(`Y` is `\d\d\d\d`; `m` is `1[0-2]|0[1-9]|[1-9]`; `d` is
`3[01]|[12]\d|0[1-9]|[1-9]`; `H` is `2[0-3]|[0-1]\d|\d`; `M` and `S`
are `[0-5]\d|\d`), matches it with `re.match`, raises `ValueError` when
the match fails or leaves unconverted characters, computes the ordinal
of the parsed date (which raises `ValueError` for an invalid calendar
date), and returns a tuple with recomputed `tm_wday`/`tm_yday` and
`tm_isdst = -1`.  The ordered alternations are reproduced with
list-of-successes parsers. -/

/-- A directive of a `strptime` format string. -/
inductive FmtTok where
  | lit (c : Char)
  | yearTok
  | monTok
  | mdayTok
  | hourTok
  | minTok
  | secTok
  deriving DecidableEq, Repr

/-- All parses of one directive, in the order the compiled regex tries
them; a literal produces no captured value. -/
def tokAlts : FmtTok → List Char → List (Option ℕ × List Char)
  | .lit c, l =>
    match l with
    | c' :: rest => if c' = c then [(none, rest)] else []
    | [] => []
  | .yearTok, l =>
    match l with
    | c1 :: c2 :: c3 :: c4 :: rest =>
      if isD c1 && isD c2 && isD c3 && isD c4 then
        [(some (((dv c1 * 10 + dv c2) * 10 + dv c3) * 10 + dv c4), rest)]
      else []
    | _ => []
  | .monTok, l =>
    (match l with
     | c1 :: c2 :: rest =>
       (if c1 = '1' && (c2 = '0' || c2 = '1' || c2 = '2') then
          [(some (10 + dv c2), rest)] else []) ++
       (if c1 = '0' && isD c2 && c2 ≠ '0' then [(some (dv c2), rest)] else [])
     | _ => []) ++
    (match l with
     | c1 :: rest => if isD c1 && c1 ≠ '0' then [(some (dv c1), rest)] else []
     | _ => [])
  | .mdayTok, l =>
    (match l with
     | c1 :: c2 :: rest =>
       (if c1 = '3' && (c2 = '0' || c2 = '1') then [(some (30 + dv c2), rest)] else []) ++
       (if (c1 = '1' || c1 = '2') && isD c2 then [(some (dv c1 * 10 + dv c2), rest)] else []) ++
       (if c1 = '0' && isD c2 && c2 ≠ '0' then [(some (dv c2), rest)] else [])
     | _ => []) ++
    (match l with
     | c1 :: rest => if isD c1 && c1 ≠ '0' then [(some (dv c1), rest)] else []
     | _ => [])
  | .hourTok, l =>
    (match l with
     | c1 :: c2 :: rest =>
       (if c1 = '2' && (c2 = '0' || c2 = '1' || c2 = '2' || c2 = '3') then
          [(some (20 + dv c2), rest)] else []) ++
       (if (c1 = '0' || c1 = '1') && isD c2 then [(some (dv c1 * 10 + dv c2), rest)] else [])
     | _ => []) ++
    (match l with
     | c1 :: rest => if isD c1 then [(some (dv c1), rest)] else []
     | _ => [])
  | .minTok, l =>
    (match l with
     | c1 :: c2 :: rest => if is05 c1 && isD c2 then [(some (dv c1 * 10 + dv c2), rest)] else []
     | _ => []) ++
    (match l with
     | c1 :: rest => if isD c1 then [(some (dv c1), rest)] else []
     | _ => [])
  | .secTok, l =>
    (match l with
     | c1 :: c2 :: rest => if is05 c1 && isD c2 then [(some (dv c1 * 10 + dv c2), rest)] else []
     | _ => []) ++
    (match l with
     | c1 :: rest => if isD c1 then [(some (dv c1), rest)] else []
     | _ => [])

/-- All parses of a format, in backtracking order; the captured values
are collected in format order (the library's formats list year, month,
day, hour, minute, second in that order). -/
def runFmt : List FmtTok → List Char → List (List ℕ × List Char)
  | [], l => [([], l)]
  | t :: ts, l =>
    (tokAlts t l).flatMap (fun p =>
      (runFmt ts p.2).map (fun q =>
        (match p.1 with
         | some v => v :: q.1
         | none => q.1, q.2)))

/-- `time.strptime(s, fmt)` for a format whose value-bearing directives
are `%Y %m %d [%H %M [%S]]` in order.  The regex engine commits to the
first match; unconverted trailing data then raises `ValueError`, as
does an invalid calendar date. -/
def strptime (fmt : List FmtTok) (s : String) : Except PyError StructTime :=
  match runFmt fmt s.data with
  | [] => .error .valueError
  | (vals, rest) :: _ =>
    if rest ≠ [] then .error .valueError
    else
      let y := vals.getD 0 1900
      let m := vals.getD 1 1
      let d := vals.getD 2 1
      let h := vals.getD 3 0
      let mi := vals.getD 4 0
      let sec := vals.getD 5 0
      if 1 ≤ y ∧ 1 ≤ m ∧ m ≤ 12 ∧ 1 ≤ d ∧ d ≤ daysInMonth y m then
        .ok ⟨y, m, d, h, mi, sec, weekday y m d, daysBeforeMonth y m + d, -1⟩
      else .error .valueError

/-- Format `%Y-%m-%dT%H.%M`. -/
def fmtIsoDotHM : List FmtTok :=
  [.yearTok, .lit '-', .monTok, .lit '-', .mdayTok, .lit 'T', .hourTok, .lit '.', .minTok]

/-- Format `%Y-%m-%dT%H.%M.%S`. -/
def fmtIsoDotHMS : List FmtTok := fmtIsoDotHM ++ [.lit '.', .secTok]

/-- Format `%Y-%m-%d`. -/
def fmtIsoDate : List FmtTok := [.yearTok, .lit '-', .monTok, .lit '-', .mdayTok]

/-- Format `%Y%m%dT%H%M%SZ`. -/
def fmtCompactZ : List FmtTok :=
  [.yearTok, .monTok, .mdayTok, .lit 'T', .hourTok, .minTok, .secTok, .lit 'Z']

/-- Format `%Y%m%dT%H%M%S`. -/
def fmtCompact : List FmtTok :=
  [.yearTok, .monTok, .mdayTok, .lit 'T', .hourTok, .minTok, .secTok]

/-- Format `%Y%m%d`. -/
def fmtCompactDate : List FmtTok := [.yearTok, .monTok, .mdayTok]

/-- Format `%Y-%m-%dT%H:%M:%SZ`. -/
def fmtIsoColonZ : List FmtTok :=
  [.yearTok, .lit '-', .monTok, .lit '-', .mdayTok, .lit 'T',
   .hourTok, .lit ':', .minTok, .lit ':', .secTok, .lit 'Z']

/-- `calendar.timegm`: seconds since the Unix epoch of a UTC
wall-clock tuple (719163 is `toordinal 1970 1 1`). -/
def timegm (st : StructTime) : ℤ :=
  ((toordinal st.tm_year st.tm_mon st.tm_mday : ℤ) - 719163) * 86400
    + st.tm_hour * 3600 + st.tm_min * 60 + st.tm_sec

/-- `OrgFormat.datetimetupeliso8601`: dispatches on the string length
(16 or 19), converting `ValueError` from `strptime` into
`TimestampParseException`; **any other length falls through both
branches onto `assert(False)`** -- the source comments this line as
dead code, but it is reached, so the function raises
`AssertionError`. -/
def datetimetupeliso8601 (datetime_string : String) : Except PyError StructTime :=
  if datetime_string.length = 16 then
    (strptime fmtIsoDotHM datetime_string).mapError
      (fun _ => .timestampParseException datetime_string)
  else if datetime_string.length = 19 then
    (strptime fmtIsoDotHMS datetime_string).mapError
      (fun _ => .timestampParseException datetime_string)
  else
    .error .assertionError

/-- `OrgFormat.datetupeliso8601`. -/
def datetupeliso8601 (datetime_string : String) : Except PyError StructTime :=
  (strptime fmtIsoDate datetime_string).mapError
    (fun _ => .timestampParseException datetime_string)

/-- `OrgFormat.datetupelutctimestamp`: dispatches on the string length
(16, 15, 8 or 27).  The 16- and 27-character forms are interpreted as
UTC and converted to local wall-clock time with `time.localtime`, which
reads the process's ambient time zone; that conversion is taken here as
the explicit parameter `localtime`.  `ValueError` from `strptime`
becomes `TimestampParseException`; **any other length logs an error and
then falls onto `assert(False)`**, raising `AssertionError`. -/
def datetupelutctimestamp (localtime : ℤ → StructTime) (datetime_string : String) :
    Except PyError StructTime :=
  let string_length := datetime_string.length
  if string_length = 16 then
    ((strptime fmtCompactZ datetime_string).map (fun st => localtime (timegm st))).mapError
      (fun _ => .timestampParseException datetime_string)
  else if string_length = 15 then
    (strptime fmtCompact datetime_string).mapError
      (fun _ => .timestampParseException datetime_string)
  else if string_length = 8 then
    (strptime fmtCompactDate datetime_string).mapError
      (fun _ => .timestampParseException datetime_string)
  else if string_length = 27 then
    -- datetime_string = datetime_string.split(".")[0] + "Z"
    let truncated : String := ⟨datetime_string.data.takeWhile (· ≠ '.') ++ ['Z']⟩
    ((strptime fmtIsoColonZ truncated).map (fun st => localtime (timegm st))).mapError
      (fun _ => .timestampParseException truncated)
  else
    .error .assertionError

/-! ### Helper lemmas -/

instance {ε α : Type} [DecidableEq ε] [DecidableEq α] : DecidableEq (Except ε α) :=
  fun a b =>
    match a, b with
    | .ok x, .ok y => decidable_of_iff (x = y) (by simp)
    | .error e, .error f => decidable_of_iff (e = f) (by simp)
    | .ok _, .error _ => isFalse (by simp)
    | .error _, .ok _ => isFalse (by simp)

theorem digitChar_cases {n : ℕ} (h : n ≤ 9) :
    digitChar n = '0' ∨ digitChar n = '1' ∨ digitChar n = '2' ∨ digitChar n = '3' ∨
    digitChar n = '4' ∨ digitChar n = '5' ∨ digitChar n = '6' ∨ digitChar n = '7' ∨
    digitChar n = '8' ∨ digitChar n = '9' := by
  interval_cases n <;> simp [digitChar]

theorem isD_digitChar {n : ℕ} (h : n ≤ 9) : isD (digitChar n) = true := by
  interval_cases n <;> decide

theorem is05_digitChar {n : ℕ} (h : n ≤ 5) : is05 (digitChar n) = true := by
  interval_cases n <;> decide

theorem dv_digitChar {n : ℕ} (h : n ≤ 9) : dv (digitChar n) = n := by
  interval_cases n <;> decide

theorem weekday_le (y m d : ℕ) : weekday y m d ≤ 6 :=
  Nat.le_of_lt_succ (Nat.mod_lt _ (by omega))

theorem daysInMonth_le (y m : ℕ) : daysInMonth y m ≤ 31 := by
  unfold daysInMonth
  split
  · split <;> omega
  · split <;> omega

theorem daysBeforeMonth_le (y : ℕ) {m : ℕ} (h : m ≤ 12) : daysBeforeMonth y m ≤ 335 := by
  interval_cases m <;>
    simp [daysBeforeMonth, List.range_succ, daysInMonth] <;>
    cases isLeap y <;> simp

/-- The validity condition of the `datetime.datetime` constructor, with
`second = 0` and bundled as one predicate for reuse. -/
abbrev ValidYmdhm (y m d h mi : ℕ) : Prop :=
  1 ≤ y ∧ y ≤ 9999 ∧ 1 ≤ m ∧ m ≤ 12 ∧ 1 ≤ d ∧ d ≤ daysInMonth y m ∧ h ≤ 23 ∧ mi ≤ 59

/-- Evaluation of `fix_struct_time_wday` on a tuple whose first six
fields are valid. -/
theorem fix_eq (st : StructTime)
    (h : ValidYmdhm st.tm_year st.tm_mon st.tm_mday st.tm_hour st.tm_min)
    (hs : st.tm_sec ≤ 59) :
    fix_struct_time_wday st =
      .ok { tm_year := st.tm_year, tm_mon := st.tm_mon, tm_mday := st.tm_mday,
            tm_hour := st.tm_hour, tm_min := st.tm_min, tm_sec := st.tm_sec,
            tm_wday := weekday st.tm_year st.tm_mon st.tm_mday,
            tm_yday := 0, tm_isdst := 0 } := by
  obtain ⟨h1, h2, h3, h4, h5, h6, h7, h8⟩ := h
  unfold fix_struct_time_wday struct_time_to_datetime datetime_mk
  rw [if_pos ⟨h1, h2, h3, h4, h5, h6, h7, h8, hs⟩]
  rfl

/-- Evaluation of `strftime_org` on a tuple with valid fields and a
recomputed weekday. -/
theorem strftime_eq (show_time inactive : Bool) (st : StructTime)
    (h : ValidYmdhm st.tm_year st.tm_mon st.tm_mday st.tm_hour st.tm_min)
    (hs : st.tm_sec ≤ 61) (hw : st.tm_wday ≤ 6) (hyd : st.tm_yday ≤ 366) :
    strftime_org show_time inactive st =
      .ok ⟨orgRender show_time inactive st.tm_year st.tm_mon st.tm_mday
             st.tm_wday st.tm_hour st.tm_min⟩ := by
  obtain ⟨h1, h2, h3, h4, h5, h6, h7, h8⟩ := h
  have h31 := daysInMonth_le st.tm_year st.tm_mon
  unfold strftime_org
  rw [if_pos ⟨h3, h4, h5, by omega, h7, h8, hs, hw, hyd, h2⟩]

/-- Evaluation of `date` on a valid `struct_time` argument: the tuple's
weekday field is discarded and the recomputed weekday rendered. -/
theorem date_inl (st : StructTime) (show_time inactive : Bool)
    (h : ValidYmdhm st.tm_year st.tm_mon st.tm_mday st.tm_hour st.tm_min)
    (hs : st.tm_sec ≤ 59) :
    date (.inl st) show_time inactive =
      .ok ⟨orgRender show_time inactive st.tm_year st.tm_mon st.tm_mday
             (weekday st.tm_year st.tm_mon st.tm_mday) st.tm_hour st.tm_min⟩ := by
  show (fix_struct_time_wday st).bind (strftime_org show_time inactive) = _
  rw [fix_eq st h hs]
  exact strftime_eq show_time inactive _ h (show st.tm_sec ≤ 61 by omega)
    (weekday_le st.tm_year st.tm_mon st.tm_mday) (show (0 : ℕ) ≤ 366 by omega)

/-- Evaluation of `date` on a `datetime` argument. -/
theorem date_inr (dt : PyDatetime) (show_time inactive : Bool)
    (h : ValidYmdhm dt.year dt.month dt.day dt.hour dt.minute)
    (hs : dt.second ≤ 59) :
    date (.inr dt) show_time inactive =
      .ok ⟨orgRender show_time inactive dt.year dt.month dt.day
             (weekday dt.year dt.month dt.day) dt.hour dt.minute⟩ := by
  show strftime_org show_time inactive (datetime_to_struct_time dt) = _
  have hyd : (datetime_to_struct_time dt).tm_yday ≤ 366 := by
    simp only [datetime_to_struct_time]
    have h1 := daysBeforeMonth_le dt.year h.2.2.2.1
    have h2 := daysInMonth_le dt.year dt.month
    have h3 := h.2.2.2.2.2.1
    omega
  have hsec : (datetime_to_struct_time dt).tm_sec ≤ 61 := by
    simp only [datetime_to_struct_time]; omega
  exact strftime_eq show_time inactive _ h hsec
    (weekday_le dt.year dt.month dt.day) hyd

/-! ### Claim theorems -/

/-- C10: for every input tuple and flag, `OrgFormat.datetime(t, inactive)`
returns exactly what `OrgFormat.datetime(t, False)` returns -- the
public `inactive` parameter has no effect, and the result is always the
active date+time rendering `OrgFormat.date(t, show_time=True)`. -/
theorem c10_datetime_inactive_no_effect (tuple_datetime : TupleOrDatetime) (inactive : Bool) :
    datetime tuple_datetime inactive = datetime tuple_datetime false ∧
    datetime tuple_datetime inactive = date tuple_datetime true false :=
  ⟨rfl, rfl⟩

/-- C9 counterexample: `fix_struct_time_wday` does *not* leave the
year-day and DST fields unchanged -- on a tuple with `tm_yday = 100`
and `tm_isdst = 1` both come back as 0 (only the first six fields are
copied; the weekday is recomputed). -/
theorem c9_counterexample :
    fix_struct_time_wday ⟨2013, 4, 3, 10, 54, 0, 0, 100, 1⟩ =
      .ok ⟨2013, 4, 3, 10, 54, 0, 2, 0, 0⟩ ∧
    (100 : ℕ) ≠ 0 ∧ (1 : ℤ) ≠ 0 := by
  refine ⟨?_, by decide, by decide⟩
  rw [fix_eq _ (by decide) (by decide)]
  rfl

/-- C9 (amended): on a tuple whose first six fields are valid,
`fix_struct_time_wday` preserves year, month, day, hour, minute and
second, replaces the weekday by the value recomputed from
(year, month, day), and sets the year-day and DST fields to 0
regardless of their input values. -/
theorem c9_fix_struct_time_wday_frame (st : StructTime)
    (h : ValidYmdhm st.tm_year st.tm_mon st.tm_mday st.tm_hour st.tm_min)
    (hs : st.tm_sec ≤ 59) :
    ∃ st', fix_struct_time_wday st = .ok st' ∧
      st'.tm_year = st.tm_year ∧ st'.tm_mon = st.tm_mon ∧ st'.tm_mday = st.tm_mday ∧
      st'.tm_hour = st.tm_hour ∧ st'.tm_min = st.tm_min ∧ st'.tm_sec = st.tm_sec ∧
      st'.tm_wday = weekday st.tm_year st.tm_mon st.tm_mday ∧
      st'.tm_yday = 0 ∧ st'.tm_isdst = 0 :=
  ⟨_, fix_eq st h hs, rfl, rfl, rfl, rfl, rfl, rfl, rfl, rfl, rfl⟩

/-- C9 witness: the amended statement instantiated on the test tuple
`(2013, 4, 3, 10, 54, 0, 0, 100, 1)`. -/
theorem c9_witness :
    ValidYmdhm 2013 4 3 10 54 ∧
    (∃ st', fix_struct_time_wday ⟨2013, 4, 3, 10, 54, 0, 0, 100, 1⟩ = .ok st' ∧
      st'.tm_year = 2013 ∧ st'.tm_mon = 4 ∧ st'.tm_mday = 3 ∧
      st'.tm_hour = 10 ∧ st'.tm_min = 54 ∧ st'.tm_sec = 0 ∧
      st'.tm_wday = weekday 2013 4 3 ∧
      st'.tm_yday = 0 ∧ st'.tm_isdst = 0) :=
  ⟨by decide, c9_fix_struct_time_wday_frame ⟨2013, 4, 3, 10, 54, 0, 0, 100, 1⟩
    (by decide) (by decide)⟩

/-- C3: `date` and `inactive_date` always render the weekday
recomputed from (year, month, day): for every valid `struct_time`
input, whatever its `tm_wday` field holds, the emitted weekday token is
`weekdayName (weekday tm_year tm_mon tm_mday)`. -/
theorem c3_weekday_recomputed (st : StructTime) (show_time inactive : Bool)
    (h : ValidYmdhm st.tm_year st.tm_mon st.tm_mday st.tm_hour st.tm_min)
    (hs : st.tm_sec ≤ 59) :
    date (.inl st) show_time inactive =
      .ok ⟨orgRender show_time inactive st.tm_year st.tm_mon st.tm_mday
             (weekday st.tm_year st.tm_mon st.tm_mday) st.tm_hour st.tm_min⟩ ∧
    inactive_date (.inl st) show_time =
      .ok ⟨orgRender show_time true st.tm_year st.tm_mon st.tm_mday
             (weekday st.tm_year st.tm_mon st.tm_mday) st.tm_hour st.tm_min⟩ := by
  refine ⟨date_inl st show_time inactive h hs, ?_⟩
  show ((fix_struct_time_wday st).bind (fun lst =>
      (fix_struct_time_wday lst).bind (strftime_org show_time true))) = _
  rw [fix_eq st h hs]
  show (fix_struct_time_wday ⟨st.tm_year, st.tm_mon, st.tm_mday, st.tm_hour, st.tm_min,
      st.tm_sec, weekday st.tm_year st.tm_mon st.tm_mday, 0, 0⟩).bind
    (strftime_org show_time true) = _
  rw [fix_eq ⟨st.tm_year, st.tm_mon, st.tm_mday, st.tm_hour, st.tm_min,
      st.tm_sec, weekday st.tm_year st.tm_mon st.tm_mday, 0, 0⟩ h hs]
  exact strftime_eq show_time true _ h (show st.tm_sec ≤ 61 by omega)
    (weekday_le st.tm_year st.tm_mon st.tm_mday) (show (0 : ℕ) ≤ 366 by omega)

/-- C3 witness: the tuple `(2013, 4, 3, 10, 54, 0, 0, 0, 0)` carries
the wrong weekday 0 (Monday); both formatters render Wednesday. -/
theorem c3_witness :
    ValidYmdhm 2013 4 3 10 54 ∧
    (date (.inl ⟨2013, 4, 3, 10, 54, 0, 0, 0, 0⟩) true false =
        .ok ⟨orgRender true false 2013 4 3 (weekday 2013 4 3) 10 54⟩ ∧
     inactive_date (.inl ⟨2013, 4, 3, 10, 54, 0, 0, 0, 0⟩) true =
        .ok ⟨orgRender true true 2013 4 3 (weekday 2013 4 3) 10 54⟩) :=
  ⟨by decide, c3_weekday_recomputed ⟨2013, 4, 3, 10, 54, 0, 0, 0, 0⟩ true false
    (by decide) (by decide)⟩

/-- Structure of any successful single-pattern match: the string starts
with the matched opening bracket, and both brackets are drawn from
their (independent) character classes. -/
theorem exists_of_findSome? {α β : Type} {f : α → Option β} :
    ∀ {l : List α} {b : β}, l.findSome? f = some b → ∃ a, a ∈ l ∧ f a = some b := by
  intro l
  induction l with
  | nil => intro b h; simp [List.findSome?] at h
  | cons x xs ih =>
    intro b h
    simp only [List.findSome?] at h
    cases hfx : f x with
    | some y =>
      rw [hfx] at h
      exact ⟨x, by simp, by rw [hfx, Option.some.inj h]⟩
    | none =>
      rw [hfx] at h
      obtain ⟨a, ha, hfa⟩ := ih h
      exact ⟨a, List.mem_cons_of_mem _ ha, hfa⟩

theorem matchSingle_shape {l : List Char} {m : SingleMatch} {rest : List Char}
    (h : matchSingle l = some (m, rest)) :
    l.head? = some m.openB ∧ isOpenB m.openB = true ∧ isCloseB m.closeB = true := by
  unfold matchSingle at h
  split at h
  next ob y1 y2 y3 y4 mo1 mo2 d1 d2 rest0 =>
    by_cases hg : (isOpenB ob && ((y1 = '1' || y1 = '2') && isD y2 && isD y3 && isD y4)
        && (is05 mo1 && isD mo2) && (is05 d1 && isD d2)) = true
    · rw [if_pos hg] at h
      obtain ⟨w, hw, hfw⟩ := exists_of_findSome? h
      have hopen : isOpenB ob = true := by
        simp only [Bool.and_eq_true] at hg
        exact hg.1.1.1
      cases hdl : dropLit w rest0 with
      | none =>
        rw [hdl] at hfw
        exact absurd hfw (by simp)
      | some rest2 =>
        rw [hdl] at hfw
        obtain ⟨t, ht, hgt⟩ := Option.map_eq_some'.mp hfw
        have hm : m = ⟨ob, ((dv y1 * 10 + dv y2) * 10 + dv y3) * 10 + dv y4,
            dv mo1 * 10 + dv mo2, dv d1 * 10 + dv d2, w, t.1.1, t.1.2.1, t.1.2.2⟩ :=
          (congrArg Prod.fst hgt).symm
        have hclose : isCloseB t.1.2.2 = true := by
          unfold matchTail at ht
          split at ht
          next h1 h2 m1 m2 cb rest3 =>
            by_cases hg2 : ((((h1 = '0' || h1 = '1') && isD h2)
                || (h1 = '2' && (h2 = '0' || h2 = '1' || h2 = '2' || h2 = '3')))
                && (is05 m1 && isD m2) && isCloseB cb) = true
            · rw [if_pos hg2] at ht
              have ht2 : ((dv h1 * 10 + dv h2, dv m1 * 10 + dv m2, cb), rest3) = t :=
                Option.some.inj ht
              have hcb : isCloseB cb = true := by
                simp only [Bool.and_eq_true] at hg2
                exact hg2.2
              rw [← ht2]
              exact hcb
            · rw [if_neg hg2] at ht
              exact absurd ht (by simp)
          next => exact absurd ht (by simp)
        refine ⟨?_, ?_, ?_⟩
        · rw [hm]; rfl
        · rw [hm]; exact hopen
        · rw [hm]; exact hclose
    · rw [if_neg hg] at h
      exact absurd h (by simp)
  next => exact absurd h (by simp)


/-- C5 counterexample: the single-timestamp pattern accepts a *mixed*
bracket pair -- `<2020-01-01 Wed 10:00]` matches, with opening `<` and
closing `]` -- because `[<\[]` and `[>\]]` are independent character
classes; and the range pattern accepts endpoints of different activity
(`<...>--[...]`). -/
theorem c5_counterexample :
    reMatchSingleFull "<2020-01-01 Wed 10:00]" =
      some ⟨'<', 2020, 1, 1, ['W', 'e', 'd'], 10, 0, ']'⟩ ∧
    reMatchRangeFull "<2020-01-01 Wed 10:00>--[2020-01-01 Wed 11:00]" =
      some ("<2020-01-01 Wed 10:00>", "[2020-01-01 Wed 11:00]") :=
  ⟨by decide, by decide⟩

/-- C5 (amended): each bracket of an accepted single timestamp is drawn
independently from its class -- the opening bracket is `<` or `[` and
the closing bracket is `>` or `]` -- with no constraint that the two
match; and the range pattern imposes no matching-activity constraint on
its endpoints (a mixed pair and a mixed-activity range are accepted). -/
theorem c5_brackets_independent (s : String) (m : SingleMatch)
    (h : reMatchSingleFull s = some m) :
    ((m.openB = '<' ∨ m.openB = '[') ∧ (m.closeB = '>' ∨ m.closeB = ']')) ∧
    (reMatchSingleFull "<2020-01-01 Wed 10:00]").isSome = true ∧
    (reMatchRangeFull "<2020-01-01 Wed 10:00>--[2020-01-01 Wed 11:00]").isSome = true := by
  refine ⟨?_, by decide, by decide⟩
  unfold reMatchSingleFull at h
  split at h
  next m1 rest1 hp =>
    obtain ⟨_, ho, hc⟩ := matchSingle_shape hp
    have hm : m = m1 := by
      by_cases ha : endAnchor rest1 = true
      · rw [if_pos ha] at h
        exact (Option.some.inj h).symm
      · rw [if_neg ha] at h
        exact absurd h (by simp)
    rw [hm]
    constructor
    · simpa [isOpenB] using ho
    · simpa [isCloseB] using hc
  next => exact absurd h (by simp)

/-- C5 witness: the amended statement instantiated on the mixed-pair
input. -/
theorem c5_witness :
    (((⟨'<', 2020, 1, 1, ['W', 'e', 'd'], 10, 0, ']'⟩ : SingleMatch).openB = '<' ∨
      (⟨'<', 2020, 1, 1, ['W', 'e', 'd'], 10, 0, ']'⟩ : SingleMatch).openB = '[') ∧
     ((⟨'<', 2020, 1, 1, ['W', 'e', 'd'], 10, 0, ']'⟩ : SingleMatch).closeB = '>' ∨
      (⟨'<', 2020, 1, 1, ['W', 'e', 'd'], 10, 0, ']'⟩ : SingleMatch).closeB = ']')) ∧
    (reMatchSingleFull "<2020-01-01 Wed 10:00]").isSome = true ∧
    (reMatchRangeFull "<2020-01-01 Wed 10:00>--[2020-01-01 Wed 11:00]").isSome = true :=
  c5_brackets_independent "<2020-01-01 Wed 10:00]"
    ⟨'<', 2020, 1, 1, ['W', 'e', 'd'], 10, 0, ']'⟩ (by decide)

/-- C8 counterexample: the patterns, as used through `re.match`, are
anchored at the *start* of the string as well -- a well-formed timestamp
preceded by one extra character is **not** recognized:
`orgmode_timestamp_to_datetime` raises its parse exception on
`x<2020-01-01 Wed 10:00>`. -/
theorem c8_counterexample :
    orgmode_timestamp_to_datetime "x<2020-01-01 Wed 10:00>" =
      .error (.timestampParseException "x<2020-01-01 Wed 10:00>") := by
  decide

/-- C8 (amended): as used by the parsing and delta-application
operations (through `re.match` and the trailing `$`), the single
pattern is anchored at both ends: every accepted string starts with its
opening bracket (so leading extra characters are rejected), trailing
extra characters are rejected, and the only trailing slack is a single
final newline, which Python's `$` tolerates. -/
theorem c8_match_anchored_both_ends :
    (∀ (s : String) (dt : PyDatetime),
        orgmode_timestamp_to_datetime s = .ok dt →
        s.data.head? = some '<' ∨ s.data.head? = some '[') ∧
    orgmode_timestamp_to_datetime "<2020-01-01 Wed 10:00>" = .ok ⟨2020, 1, 1, 10, 0, 0, 0⟩ ∧
    orgmode_timestamp_to_datetime "<2020-01-01 Wed 10:00>x" =
      .error (.timestampParseException "<2020-01-01 Wed 10:00>x") ∧
    orgmode_timestamp_to_datetime "<2020-01-01 Wed 10:00>\n" = .ok ⟨2020, 1, 1, 10, 0, 0, 0⟩ := by
  refine ⟨?_, by decide, by decide, by decide⟩
  intro s dt h
  unfold orgmode_timestamp_to_datetime at h
  split at h
  next => exact absurd h (by simp)
  next c hc =>
    unfold reMatchSingleFull at hc
    split at hc
    next m1 rest1 hp =>
      obtain ⟨hhead, ho, _⟩ := matchSingle_shape hp
      rw [hhead]
      simpa [isOpenB] using ho
    next => exact absurd hc (by simp)

/-- C8 witness: the anchoring statement instantiated on
`<2020-01-01 Wed 10:00>`. -/
theorem c8_witness :
    ("<2020-01-01 Wed 10:00>" : String).data.head? = some '<' ∨
    ("<2020-01-01 Wed 10:00>" : String).data.head? = some '[' :=
  c8_match_anchored_both_ends.1 "<2020-01-01 Wed 10:00>" ⟨2020, 1, 1, 10, 0, 0, 0⟩ (by decide)

/-- C6 counterexample: `<2019-13-01 Tue 10:00>` passes the grammar
(month `13` matches `[012345]\d`), but `orgmode_timestamp_to_datetime`
raises the *date library's* `ValueError` -- the `datetime.datetime`
call is not wrapped -- not `TimestampParseException`. -/
theorem c6_counterexample :
    (reMatchSingleFull "<2019-13-01 Tue 10:00>").isSome = true ∧
    orgmode_timestamp_to_datetime "<2019-13-01 Tue 10:00>" = .error .valueError :=
  ⟨by decide, by decide⟩

/-- C6 (amended): whenever the grammar accepts a timestamp whose digits
denote a month/day combination the date library rejects,
`orgmode_timestamp_to_datetime` propagates the library's `ValueError`
(the code raises `TimestampParseException` only for grammar
failures). -/
theorem c6_out_of_range_raises_valueerror (s : String) (m : SingleMatch)
    (h : reMatchSingleFull s = some m)
    (hbad : ¬ (1 ≤ m.month ∧ m.month ≤ 12 ∧ 1 ≤ m.day ∧ m.day ≤ daysInMonth m.year m.month)) :
    orgmode_timestamp_to_datetime s = .error .valueError := by
  have hstep : orgmode_timestamp_to_datetime s =
      datetime_mk m.year m.month m.day m.hour m.minute 0 := by
    unfold orgmode_timestamp_to_datetime
    rw [h]
  rw [hstep]
  unfold datetime_mk
  exact if_neg (fun hcond =>
    hbad ⟨hcond.2.2.1, hcond.2.2.2.1, hcond.2.2.2.2.1, hcond.2.2.2.2.2.1⟩)

/-- C6 witness: the amended statement instantiated on
`<2019-13-01 Tue 10:00>`. -/
theorem c6_witness :
    orgmode_timestamp_to_datetime "<2019-13-01 Tue 10:00>" = .error .valueError :=
  c6_out_of_range_raises_valueerror "<2019-13-01 Tue 10:00>"
    ⟨'<', 2019, 13, 1, ['T', 'u', 'e'], 10, 0, '>'⟩ (by decide) (by decide)

/-- C7: a 17-character input to `datetimetupeliso8601` and the
6-character input `foobar` to `datetupelutctimestamp` (the latter taken
from the repository's own test suite, which expects
`TimestampParseException`) both fall through the length dispatch onto
`assert(False)` and raise `AssertionError`, not the timestamp-format
error. -/
theorem c7_wrong_length_asserts :
    datetimetupeliso8601 "2019-01-01T10.00X" = .error .assertionError ∧
    datetupelutctimestamp (fun _ => ⟨1970, 1, 1, 0, 0, 0, 3, 1, 0⟩) "foobar" =
      .error .assertionError :=
  ⟨by decide, by decide⟩

/-- Length of one rendered timestamp: 22 characters with the time
shown, 16 without (weekday recomputed, hence ≤ 6). -/
theorem orgRender_length (show_time inactive : Bool) (y m d wd h mi : ℕ) (hw : wd ≤ 6) :
    (orgRender show_time inactive y m d wd h mi).length =
      if show_time then 22 else 16 := by
  interval_cases wd <;> cases show_time <;> cases inactive <;>
    simp [orgRender, year4, pad2, weekdayName]

/-- C4: `utcrange` renders a date-only range exactly when hour, minute
and second are all zero on *both* endpoints; otherwise it renders both
endpoints with an `HH:MM` component (a midnight endpoint paired with a
non-midnight one shows `00:00`), and a date+time range string is never
equal to the date-only one. -/
theorem c4_utcrange_time_iff (b e : StructTime)
    (hb : ValidYmdhm b.tm_year b.tm_mon b.tm_mday b.tm_hour b.tm_min) (hbs : b.tm_sec ≤ 59)
    (he : ValidYmdhm e.tm_year e.tm_mon e.tm_mday e.tm_hour e.tm_min) (hes : e.tm_sec ≤ 59) :
    ((b.tm_sec = 0 ∧ b.tm_min = 0 ∧ b.tm_hour = 0 ∧
      e.tm_sec = 0 ∧ e.tm_min = 0 ∧ e.tm_hour = 0) →
      utcrange b e =
        .ok (⟨orgRender false false b.tm_year b.tm_mon b.tm_mday
               (weekday b.tm_year b.tm_mon b.tm_mday) b.tm_hour b.tm_min⟩ ++ "--" ++
             ⟨orgRender false false e.tm_year e.tm_mon e.tm_mday
               (weekday e.tm_year e.tm_mon e.tm_mday) e.tm_hour e.tm_min⟩)) ∧
    (¬ (b.tm_sec = 0 ∧ b.tm_min = 0 ∧ b.tm_hour = 0 ∧
        e.tm_sec = 0 ∧ e.tm_min = 0 ∧ e.tm_hour = 0) →
      utcrange b e =
        .ok (⟨orgRender true false b.tm_year b.tm_mon b.tm_mday
               (weekday b.tm_year b.tm_mon b.tm_mday) b.tm_hour b.tm_min⟩ ++ "--" ++
             ⟨orgRender true false e.tm_year e.tm_mon e.tm_mday
               (weekday e.tm_year e.tm_mon e.tm_mday) e.tm_hour e.tm_min⟩) ∧
      (⟨orgRender true false b.tm_year b.tm_mon b.tm_mday
          (weekday b.tm_year b.tm_mon b.tm_mday) b.tm_hour b.tm_min⟩ ++ "--" ++
        ⟨orgRender true false e.tm_year e.tm_mon e.tm_mday
          (weekday e.tm_year e.tm_mon e.tm_mday) e.tm_hour e.tm_min⟩ : String) ≠
      (⟨orgRender false false b.tm_year b.tm_mon b.tm_mday
          (weekday b.tm_year b.tm_mon b.tm_mday) b.tm_hour b.tm_min⟩ ++ "--" ++
        ⟨orgRender false false e.tm_year e.tm_mon e.tm_mday
          (weekday e.tm_year e.tm_mon e.tm_mday) e.tm_hour e.tm_min⟩ : String)) := by
  have h1t := date_inl b true false hb hbs
  have h1f := date_inl b false false hb hbs
  have h2t := date_inl e true false he hes
  have h2f := date_inl e false false he hes
  constructor
  · intro hcond
    unfold utcrange
    rw [if_pos hcond]
    unfold daterange
    rw [h1f, h2f]
    rfl
  · intro hcond
    refine ⟨?_, ?_⟩
    · unfold utcrange
      rw [if_neg hcond]
      unfold datetimerange
      rw [h1t, h2t]
      rfl
    · intro heq
      have hlen := congrArg (fun s : String => s.data.length) heq
      simp only [String.data_append, List.length_append,
        orgRender_length _ _ _ _ _ _ _ _ (weekday_le b.tm_year b.tm_mon b.tm_mday),
        orgRender_length _ _ _ _ _ _ _ _ (weekday_le e.tm_year e.tm_mon e.tm_mday)] at hlen
      simp at hlen

/-- C4 witness: a midnight begin endpoint paired with a non-midnight
end endpoint (the auto-detection inputs of the test suite). -/
theorem c4_witness :
    (ValidYmdhm 2011 11 29 0 0 ∧ ValidYmdhm 2011 11 30 23 59) ∧
    (((0 : ℕ) = 0 ∧ (0 : ℕ) = 0 ∧ (0 : ℕ) = 0 ∧
      (58 : ℕ) = 0 ∧ (59 : ℕ) = 0 ∧ (23 : ℕ) = 0 →
      utcrange ⟨2011, 11, 29, 0, 0, 0, 0, 0, 0⟩ ⟨2011, 11, 30, 23, 59, 58, 0, 0, 0⟩ =
        .ok (⟨orgRender false false 2011 11 29 (weekday 2011 11 29) 0 0⟩ ++ "--" ++
             ⟨orgRender false false 2011 11 30 (weekday 2011 11 30) 23 59⟩)) ∧
    (¬ ((0 : ℕ) = 0 ∧ (0 : ℕ) = 0 ∧ (0 : ℕ) = 0 ∧
        (58 : ℕ) = 0 ∧ (59 : ℕ) = 0 ∧ (23 : ℕ) = 0) →
      utcrange ⟨2011, 11, 29, 0, 0, 0, 0, 0, 0⟩ ⟨2011, 11, 30, 23, 59, 58, 0, 0, 0⟩ =
        .ok (⟨orgRender true false 2011 11 29 (weekday 2011 11 29) 0 0⟩ ++ "--" ++
             ⟨orgRender true false 2011 11 30 (weekday 2011 11 30) 23 59⟩) ∧
      (⟨orgRender true false 2011 11 29 (weekday 2011 11 29) 0 0⟩ ++ "--" ++
        ⟨orgRender true false 2011 11 30 (weekday 2011 11 30) 23 59⟩ : String) ≠
      (⟨orgRender false false 2011 11 29 (weekday 2011 11 29) 0 0⟩ ++ "--" ++
        ⟨orgRender false false 2011 11 30 (weekday 2011 11 30) 23 59⟩ : String))) :=
  ⟨⟨by decide, by decide⟩,
   c4_utcrange_time_iff ⟨2011, 11, 29, 0, 0, 0, 0, 0, 0⟩ ⟨2011, 11, 30, 23, 59, 58, 0, 0, 0⟩
     (by decide) (by decide) (by decide) (by decide)⟩

/-- C1 counterexample: `<2019-13-01 Tue 10:00>` is accepted by the
single-timestamp grammar (month `13` matches `[012345]\d`), yet
`apply_timedelta_to_Orgmode_timestamp` produces no re-rendered output
for it -- the underlying date library's `ValueError` escapes instead. -/
theorem c1_counterexample :
    (reMatchSingleFull "<2019-13-01 Tue 10:00>").isSome = true ∧
    apply_timedelta_to_Orgmode_timestamp "<2019-13-01 Tue 10:00>" 0 =
      .error .valueError :=
  ⟨by decide, by decide⟩

/-- A string of the shape the active date+time template produces. -/
def IsActiveDateTimeRender (t : String) : Prop :=
  ∃ y m d wd h mi, t = ⟨orgRender true false y m d wd h mi⟩

/-- Any string successfully rendered through `strftime_org` with
`show_time = True` and `inactive = False` is an active date+time
render. -/
theorem strftime_ok_form {st : StructTime} {r : String}
    (h : strftime_org true false st = .ok r) :
    IsActiveDateTimeRender r := by
  unfold strftime_org at h
  by_cases hc : 1 ≤ st.tm_mon ∧ st.tm_mon ≤ 12 ∧ 1 ≤ st.tm_mday ∧ st.tm_mday ≤ 31
      ∧ st.tm_hour ≤ 23 ∧ st.tm_min ≤ 59 ∧ st.tm_sec ≤ 61
      ∧ st.tm_wday ≤ 6 ∧ st.tm_yday ≤ 366 ∧ st.tm_year ≤ 9999
  · rw [if_pos hc] at h
    exact ⟨st.tm_year, st.tm_mon, st.tm_mday, st.tm_wday, st.tm_hour, st.tm_min,
      (Except.ok.inj h).symm⟩
  · rw [if_neg hc] at h
    exact absurd h (by simp)

/-- Any successful result of `OrgFormat.datetime` on a `datetime`
argument is an active date+time render. -/
theorem datetime_inr_form {dt : PyDatetime} {r : String}
    (h : datetime (.inr dt) false = .ok r) : IsActiveDateTimeRender r :=
  strftime_ok_form h

theorem bind_ok {ε α β : Type} {x : Except ε α} {f : α → Except ε β} {b : β}
    (h : (x >>= f) = .ok b) : ∃ a, x = .ok a ∧ f a = .ok b := by
  cases x with
  | error e => exact absurd h (by simp [Bind.bind, Except.bind])
  | ok a => exact ⟨a, rfl, h⟩

/-- C1 (amended, to grammar-accepted inputs whose components the date
library accepts): the delta application shifts each parsed timestamp on
the calendar timeline with correct day/month/year carrying and weekday
re-derivation -- in particular the claim's range example, the day-carry
example, and an inactive input are re-rendered as stated -- rejoins
range endpoints with `--`, and **every** successful output consists of
active date+time renders (`<YYYY-MM-DD Www HH:MM>`), regardless of the
input's bracket kinds. -/
theorem c1_apply_timedelta :
    apply_timedelta_to_Orgmode_timestamp
        "<2020-01-01 Wed 01:30>--<2020-01-01 Wed 02:00>" (-9000000000) =
      .ok "<2019-12-31 Tue 23:00>--<2019-12-31 Tue 23:30>" ∧
    apply_timedelta_to_Orgmode_timestamp "<2019-11-05 Tue 23:59>" 3600000000 =
      .ok "<2019-11-06 Wed 00:59>" ∧
    apply_timedelta_to_Orgmode_timestamp "[2019-11-05 Tue 23:59]" 3600000000 =
      .ok "<2019-11-06 Wed 00:59>" ∧
    ∀ (s : String) (delta : ℤ) (out : String),
      apply_timedelta_to_Orgmode_timestamp s delta = .ok out →
      (∃ a b : String, out = a ++ "--" ++ b ∧
        IsActiveDateTimeRender a ∧ IsActiveDateTimeRender b) ∨
      IsActiveDateTimeRender out := by
  refine ⟨by decide, by decide, by decide, ?_⟩
  intro s delta out h
  unfold apply_timedelta_to_Orgmode_timestamp at h
  split at h
  next rc hrc =>
    obtain ⟨dt1, _, h⟩ := bind_ok h
    obtain ⟨dt1s, _, h⟩ := bind_ok h
    obtain ⟨r1, hr1, h⟩ := bind_ok h
    obtain ⟨dt2, _, h⟩ := bind_ok h
    obtain ⟨dt2s, _, h⟩ := bind_ok h
    obtain ⟨r2, hr2, h⟩ := bind_ok h
    exact Or.inl ⟨r1, r2, (Except.ok.inj h).symm,
      datetime_inr_form hr1, datetime_inr_form hr2⟩
  next =>
    obtain ⟨dt, _, h⟩ := bind_ok h
    obtain ⟨dts, _, h⟩ := bind_ok h
    exact Or.inr (datetime_inr_form h)

/-- C1 witness: the output-form statement instantiated on the claim's
range example. -/
theorem c1_witness :
    (∃ a b : String, "<2019-12-31 Tue 23:00>--<2019-12-31 Tue 23:30>" = a ++ "--" ++ b ∧
      IsActiveDateTimeRender a ∧ IsActiveDateTimeRender b) ∨
    IsActiveDateTimeRender "<2019-12-31 Tue 23:00>--<2019-12-31 Tue 23:30>" :=
  c1_apply_timedelta.2.2.2 "<2020-01-01 Wed 01:30>--<2020-01-01 Wed 02:00>"
    (-9000000000) "<2019-12-31 Tue 23:00>--<2019-12-31 Tue 23:30>" (by decide)

/-- Parsing the rendered time-of-day tail recovers hour and minute. -/
theorem matchTail_render (h mi : ℕ) (hh : h ≤ 23) (hmi : mi ≤ 59) :
    matchTail (' ' :: digitChar (h / 10) :: digitChar (h % 10) :: ':' ::
        digitChar (mi / 10) :: digitChar (mi % 10) :: '>' :: []) =
      some ((h, mi, '>'), []) := by
  have hh1 : h % 10 ≤ 9 := by omega
  have hm1 : mi % 10 ≤ 9 := by omega
  have hvh : dv (digitChar (h / 10)) * 10 + dv (digitChar (h % 10)) = h := by
    rw [dv_digitChar (by omega), dv_digitChar hh1]; omega
  have hvmi : dv (digitChar (mi / 10)) * 10 + dv (digitChar (mi % 10)) = mi := by
    rw [dv_digitChar (by omega), dv_digitChar hm1]; omega
  simp only [matchTail]
  rw [hvh, hvmi]
  rcases (show h / 10 = 0 ∨ h / 10 = 1 ∨ h / 10 = 2 from by omega) with h2 | h2 | h2
  · rw [h2]
    simp +decide [isD_digitChar hh1, is05_digitChar (show mi / 10 ≤ 5 by omega),
      isD_digitChar hm1]
  · rw [h2]
    simp +decide [isD_digitChar hh1, is05_digitChar (show mi / 10 ≤ 5 by omega),
      isD_digitChar hm1]
  · rw [h2]
    rcases (show h % 10 = 0 ∨ h % 10 = 1 ∨ h % 10 = 2 ∨ h % 10 = 3 from by omega)
      with h3 | h3 | h3 | h3 <;>
      rw [h3] <;>
      simp +decide [is05_digitChar (show mi / 10 ≤ 5 by omega), isD_digitChar hm1]

/-- Parsing an active date+time render recovers exactly the rendered
components: the single-timestamp matcher consumes the whole string and
extracts the same year, month, day, hour and minute (for components in
the grammar-supported ranges). -/
theorem matchSingle_render (y m d w h mi : ℕ)
    (hy1 : 1000 ≤ y) (hy2 : y ≤ 2999) (hm : m ≤ 59) (hd : d ≤ 59)
    (hw : w ≤ 6) (hh : h ≤ 23) (hmi : mi ≤ 59) :
    matchSingle (orgRender true false y m d w h mi) =
      some (⟨'<', y, m, d, weekdayName w, h, mi, '>'⟩, []) := by
  have hy3 : y / 1000 % 10 = y / 1000 := by omega
  have hvy : ((dv (digitChar (y / 1000 % 10)) * 10 + dv (digitChar (y / 100 % 10))) * 10
      + dv (digitChar (y / 10 % 10))) * 10 + dv (digitChar (y % 10)) = y := by
    rw [dv_digitChar (by omega), dv_digitChar (by omega), dv_digitChar (by omega),
      dv_digitChar (by omega)]
    omega
  have hvm : dv (digitChar (m / 10)) * 10 + dv (digitChar (m % 10)) = m := by
    rw [dv_digitChar (by omega), dv_digitChar (by omega)]; omega
  have hvd : dv (digitChar (d / 10)) * 10 + dv (digitChar (d % 10)) = d := by
    rw [dv_digitChar (by omega), dv_digitChar (by omega)]; omega
  have hby : (decide (digitChar (y / 1000 % 10) = '1')
      || decide (digitChar (y / 1000 % 10) = '2')) = true := by
    rcases (show y / 1000 = 1 ∨ y / 1000 = 2 from by omega) with h1 | h1 <;>
      rw [hy3, h1] <;> decide
  simp only [orgRender, year4, pad2, Bool.false_eq_true, if_true, if_false,
    ite_true, ite_false, List.cons_append, List.nil_append, List.append_assoc]
  simp +decide only [matchSingle, hby,
    isD_digitChar (show y / 100 % 10 ≤ 9 by omega),
    isD_digitChar (show y / 10 % 10 ≤ 9 by omega),
    isD_digitChar (show y % 10 ≤ 9 by omega),
    is05_digitChar (show m / 10 ≤ 5 by omega),
    isD_digitChar (show m % 10 ≤ 9 by omega),
    is05_digitChar (show d / 10 ≤ 5 by omega),
    isD_digitChar (show d % 10 ≤ 9 by omega)]
  interval_cases w <;>
    simp +decide [weekdayName, weekdayAlts, List.findSome?, dropLit,
      matchTail_render h mi hh hmi, hvy, hvm, hvd]

/-- C2: for every valid (year, month, day, hour, minute) in the
grammar-supported range, fixing the weekday (whatever weekday, year-day
and DST values the tuple carried), formatting as an active date+time
timestamp, parsing the rendered string back and formatting it again
yields the identical rendered string. -/
theorem c2_render_parse_render (y m d h mi w yd : ℕ) (dst : ℤ)
    (hy1 : 1000 ≤ y) (hy2 : y ≤ 2999) (hm1 : 1 ≤ m) (hm2 : m ≤ 12)
    (hd1 : 1 ≤ d) (hd2 : d ≤ daysInMonth y m) (hh : h ≤ 23) (hmi : mi ≤ 59) :
    ∃ (st : StructTime) (s : String) (dt : PyDatetime),
      fix_struct_time_wday ⟨y, m, d, h, mi, 0, w, yd, dst⟩ = .ok st ∧
      datetime (.inl st) false = .ok s ∧
      orgmode_timestamp_to_datetime s = .ok dt ∧
      datetime (.inr dt) false = .ok s := by
  have hval : ValidYmdhm y m d h mi := ⟨by omega, by omega, hm1, hm2, hd1, hd2, hh, hmi⟩
  have hms := matchSingle_render y m d (weekday y m d) h mi hy1 hy2 (by omega)
    (by have := daysInMonth_le y m; omega) (weekday_le y m d) hh hmi
  have hfull : reMatchSingleFull ⟨orgRender true false y m d (weekday y m d) h mi⟩ =
      some ⟨'<', y, m, d, weekdayName (weekday y m d), h, mi, '>'⟩ := by
    unfold reMatchSingleFull
    rw [show (String.mk (orgRender true false y m d (weekday y m d) h mi)).data
        = orgRender true false y m d (weekday y m d) h mi from rfl]
    rw [hms]
    rfl
  refine ⟨⟨y, m, d, h, mi, 0, weekday y m d, 0, 0⟩,
    ⟨orgRender true false y m d (weekday y m d) h mi⟩, ⟨y, m, d, h, mi, 0, 0⟩,
    ?_, ?_, ?_, ?_⟩
  · exact fix_eq ⟨y, m, d, h, mi, 0, w, yd, dst⟩ hval (show (0 : ℕ) ≤ 59 by omega)
  · exact date_inl ⟨y, m, d, h, mi, 0, weekday y m d, 0, 0⟩ true false hval
      (show (0 : ℕ) ≤ 59 by omega)
  · unfold orgmode_timestamp_to_datetime
    rw [hfull]
    show datetime_mk y m d h mi 0 = .ok ⟨y, m, d, h, mi, 0, 0⟩
    unfold datetime_mk
    rw [if_pos ⟨by omega, by omega, hm1, hm2, hd1, hd2, hh, hmi, by omega⟩]
  · exact date_inr ⟨y, m, d, h, mi, 0, 0⟩ true false hval (show (0 : ℕ) ≤ 59 by omega)

/-- C2 witness: the pipeline instantiated on 2013-04-03 10:54 with a
wrong weekday, a junk year-day and a junk DST flag in the input
tuple. -/
theorem c2_witness :
    ((1000 : ℕ) ≤ 2013 ∧ (2013 : ℕ) ≤ 2999 ∧ (1 : ℕ) ≤ 4 ∧ (4 : ℕ) ≤ 12 ∧
     (1 : ℕ) ≤ 3 ∧ (3 : ℕ) ≤ daysInMonth 2013 4 ∧ (10 : ℕ) ≤ 23 ∧ (54 : ℕ) ≤ 59) ∧
    (∃ (st : StructTime) (s : String) (dt : PyDatetime),
      fix_struct_time_wday ⟨2013, 4, 3, 10, 54, 0, 0, 7, 1⟩ = .ok st ∧
      datetime (.inl st) false = .ok s ∧
      orgmode_timestamp_to_datetime s = .ok dt ∧
      datetime (.inr dt) false = .ok s) :=
  ⟨by decide, c2_render_parse_render 2013 4 3 10 54 0 7 1 (by decide) (by decide)
    (by decide) (by decide) (by decide) (by decide) (by decide) (by decide)⟩

end Orgformat
